import Mathlib

/-!
Shallow embedding of the RinglyPro RCS service (src/app.py and
src/utils/rcs_payload.py) and proofs about its behaviour.

Python strings are modelled as Lean `String` (lists of unicode scalar
values, matching Python code-point semantics for `len`, `lower`, `strip`
and substring tests on the inputs that occur here).  The handful of
regular expressions used by the intent matcher only use literal
characters, the word-boundary anchor and the any-gap `.*`, so they are
embedded as token lists with an executable search function mirroring
`re.search`.
-/

namespace RinglyPro

/-- Tokens of the tiny regex fragment used in `IntelligentResponder.intents`
(src/app.py lines 108-167): literal characters, the non-newline gap
produced by a `.*` in a pattern, and the word-boundary anchor from a
backslash-b in a pattern. -/
inductive Tok where
  | lit : Char → Tok
  | anyStar : Tok
  | wb : Tok
deriving DecidableEq

/-- Word characters for the word-boundary anchor: letters, digits and the
underscore, the ASCII fragment relevant to the embedded patterns. -/
def isWordChar (c : Char) : Bool := c.isAlphanum || c == '_'

/-- A word boundary holds between two (optional) adjacent characters when
exactly one side is a word character. -/
def atBoundary (prev next : Option Char) : Bool :=
  (match prev with | some c => isWordChar c | none => false)
  != (match next with | some c => isWordChar c | none => false)

/-- Positions reachable from the current one by letting a `.*` consume
zero or more non-newline characters: each entry is the character before
the position paired with the remaining input. -/
def starSuffixes (prev : Option Char) : List Char → List (Option Char × List Char)
  | [] => [(prev, [])]
  | a :: s2 => (prev, a :: s2) :: (if a == '\n' then [] else starSuffixes (some a) s2)

/-- Match a token list against a character list, `prev` being the
character just before the current position (for boundary checks). -/
def matchToks : List Tok → Option Char → List Char → Bool
  | [], _, _ => true
  | Tok.wb :: rest, prev, s => atBoundary prev s.head? && matchToks rest prev s
  | Tok.lit c :: rest, _, s =>
      match s with
      | [] => false
      | a :: s2 => a == c && matchToks rest (some a) s2
  | Tok.anyStar :: rest, prev, s =>
      (starSuffixes prev s).any (fun q => matchToks rest q.1 q.2)

/-- Search for a match of `toks` starting at any position of `s`,
mirroring `re.search`. -/
def searchFrom (prev : Option Char) (toks : List Tok) (s : List Char) : Bool :=
  match s with
  | [] => matchToks toks prev []
  | a :: s2 => matchToks toks prev (a :: s2) || searchFrom (some a) toks s2

/-- Boolean `re.search(pattern, s)`. -/
def reSearch (toks : List Tok) (s : String) : Bool :=
  searchFrom none toks s.data

/-- Literal characters of a plain pattern fragment. -/
def lits (s : String) : List Tok := s.data.map Tok.lit

/-- Does `haystack` start with `needle`?  (List form of Python prefix test.) -/
def startsWithL : List Char → List Char → Bool
  | [], _ => true
  | _ :: _, [] => false
  | a :: as, b :: bs => a == b && startsWithL as bs

/-- Python substring containment `needle in haystack` on character lists. -/
def subList (n : List Char) : List Char → Bool
  | [] => n.isEmpty
  | b :: hs => startsWithL n (b :: hs) || subList n hs

/-- Python substring containment on strings. -/
def containsSub (needle hay : String) : Bool := subList needle.data hay.data

/-- Characters removed by Python `str.strip()` for the ASCII inputs in play. -/
def isSpaceChar (c : Char) : Bool :=
  c == ' ' || c == '\t' || c == '\n' || c == '\r' || c == '\x0b' || c == '\x0c'

/-- Python `str.strip()`: drop leading and trailing whitespace. -/
def stripStr (s : String) : String :=
  String.mk (((s.data.dropWhile isSpaceChar).reverse.dropWhile isSpaceChar).reverse)

/-- Python truthiness of an optional string (`None` and `""` are falsy). -/
def truthy (o : Option String) : Bool := o.getD "" != ""

/-- Python `str.lower()` for the ASCII inputs in play, character by
character. -/
def toLowerStr (s : String) : String := String.mk (s.data.map Char.toLower)

/-- Pattern of the form backslash-b literal backslash-b. -/
def wbPat (s : String) : List Tok := [Tok.wb] ++ lits s ++ [Tok.wb]

/-- Pattern of the form literal `.*` literal. -/
def gapPat (a b : String) : List Tok := lits a ++ [Tok.anyStar] ++ lits b

/-- The static intent table of `IntelligentResponder.__init__`
(src/app.py lines 108-167): name, ordered regex patterns, ordered
candidate responses.  Iteration order is Python dict insertion order. -/
def intents : List (String × List (List Tok) × List String) :=
  [ ( "greeting",
      [wbPat "hello", wbPat "hi", wbPat "hey", wbPat "good morning",
       wbPat "good afternoon", wbPat "good evening"],
      [ "Hello! 👋 Welcome to RinglyPro! How can I help you today?",
        "Hi there! 😊 Thanks for reaching out to RinglyPro. What can I assist you with?",
        "Hey! Great to hear from you. How can RinglyPro help your business today?"] ),
    ( "get_started",
      [lits "get started", gapPat "how" "start", lits "sign up", lits "begin",
       gapPat "try" "free", gapPat "start" "trial"],
      [ "🚀 Getting started with RinglyPro is easy!\n\n1️⃣ Sign up for free at ringlypro.com\n2️⃣ Connect your phone number\n3️⃣ Start automating!\n\nReply DEMO for a walkthrough or PRICING for our plans."] ),
    ( "pricing",
      [lits "pric", lits "cost", lits "how much", lits "plans", lits "subscription", lits "fee"],
      [ "💰 RinglyPro Pricing:\n\n📱 Starter: $29/mo\n- 1,000 messages\n- Basic automation\n\n🚀 Pro: $99/mo\n- 10,000 messages\n- Advanced AI\n- Priority support\n\n🏢 Enterprise: Custom\n- Unlimited messages\n- Custom integrations\n\nReply TRIAL for 14-day free trial!"] ),
    ( "features",
      [lits "features", gapPat "what" "do", lits "capabilities", lits "benefits",
       gapPat "what" "offer"],
      [ "✨ RinglyPro Features:\n\n🤖 24/7 AI Receptionist\n📅 Smart appointment scheduling\n💬 RCS & SMS automation\n📊 Analytics dashboard\n🔄 CRM integration\n📞 Missed call text-back\n🎯 Lead qualification\n\nReply DEMO to see it in action!"] ),
    ( "demo",
      [lits "demo", lits "trial", lits "test", lits "try", lits "sample", lits "example"],
      [ "🎥 I\x27d love to show you RinglyPro in action!\n\n📅 Book a demo: ringlypro.com/demo\n📞 Call us: 1-888-610-3810\n💬 Or reply SCHEDULE to book right now!\n\nYou can also start your 14-day free trial immediately!"] ),
    ( "support",
      [lits "help", lits "support", lits "problem", lits "issue", lits "not work", lits "trouble"],
      [ "🛟 I\x27m here to help!\n\n📧 Email: support@ringlypro.com\n📞 Phone: 1-888-610-3810\n💬 Live chat: ringlypro.com/chat\n\nWhat specific issue are you experiencing? I\x27ll help you right away!"] ),
    ( "appointment",
      [lits "appointment", lits "schedule", lits "book", lits "meeting", lits "calendar"],
      [ "📅 Let\x27s schedule your appointment!\n\nAvailable slots this week:\n⏰ Tomorrow 2:00 PM\n⏰ Thursday 10:00 AM\n⏰ Friday 3:30 PM\n\nReply with your preferred time or CALL to speak with someone now."] ),
    ( "thanks",
      [lits "thank", lits "thanks", lits "thx", lits "appreciate", lits "ty"],
      [ "You\x27re welcome! 😊 We\x27re always here to help. Don\x27t hesitate to reach out if you need anything else!",
        "Happy to help! 🎉 Is there anything else you\x27d like to know about RinglyPro?"] ),
    ( "bye",
      [lits "bye", lits "goodbye", lits "see you", lits "later", lits "exit"],
      [ "Goodbye! 👋 Thanks for chatting with RinglyPro. We\x27re here 24/7 whenever you need us!",
        "See you soon! 🚀 Remember, you can always text us or visit ringlypro.com. Have a great day!"] ) ]

/-- Embedding of `IntelligentResponder.detect_intent` (src/app.py lines 169-177):
lowercase the message and return the first intent one of whose patterns
matches; `None` when no pattern matches. -/
def detect_intent (message : String) : Option String :=
  ((intents.find? (fun e => e.2.1.any (fun p => reSearch p (toLowerStr message)))).map (·.1))

/-- Model of `random.choice` with a caller-supplied index chooser: picks
an element of a nonempty list (the chooser is reduced mod the length). -/
def choiceOf (pick : List String → Nat) (l : List String) : String :=
  l.getD (pick l % l.length) ""

/-- Keywords of the yes-branch of `get_response` (src/app.py line 191). -/
def yesWords : List String := [ "yes", "yeah", "sure", "ok", "okay", "yep"]

/-- Keywords of the no-branch of `get_response` (src/app.py line 194). -/
def noWords : List String := [ "no", "nope", "not", "nah"]

/-- Fixed reply of the yes-branch of `get_response` (src/app.py line 192). -/
def yesReply : String := "Great! 🎉 What would you like to do next? You can:\n\n1️⃣ Start free trial\n2️⃣ Schedule a demo\n3️⃣ Learn about features\n\nJust reply with your choice!"

/-- Fixed reply of the no-branch of `get_response` (src/app.py line 195). -/
def noReply : String := "No problem! If you change your mind or have any questions, I\x27m here 24/7. How else can I help you today?"

/-- The generic menu default of `get_response` (src/app.py lines 198-206). -/
def defaultMenu : String := "Thanks for your message! I can help you with:\n\n📱 Getting started with RinglyPro\n💰 Pricing information\n🎯 Features overview\n📅 Scheduling a demo\n🛟 Technical support\n\nWhat interests you most?"

/-- Embedding of `IntelligentResponder.get_response` (src/app.py lines 179-206):
intent match picks a random response for that intent, else yes/no keyword
substring checks on the lowercased message, else the generic menu. -/
def get_response (pick : List String → Nat) (message : String) : String :=
  match detect_intent message with
  | some intent =>
      choiceOf pick (((intents.find? (fun e => e.1 == intent)).map (·.2.2)).getD [])
  | none =>
      if yesWords.any (fun w => containsSub w (toLowerStr message)) then yesReply
      else if noWords.any (fun w => containsSub w (toLowerStr message)) then noReply
      else defaultMenu

/-- Python `str(intent)` as used at src/app.py line 502: `str(None)` is
the literal string `"None"`; a matched intent label passes through. -/
def strOfIntent : Option String → String
  | some s => s
  | none => "None"

/-- Python `s.startswith(pre)` on strings. -/
def pyStartsWith (s pre : String) : Bool := startsWithL pre.data s.data

/-- A provider send request issued through the Twilio client: either a
content-template send (messaging service, destination, content sid, the
single content variable) or a plain body send with optional media. -/
inductive SendCall where
  | templateSend (msid toAddr contentSid varOne : String)
  | smsSend (msid toAddr body : String) (media : Option String)
deriving DecidableEq

/-- One `twilio_client.messages.create` invocation together with the
provider message id it yielded (`none` when the call raised). -/
structure Attempt where
  call : SendCall
  sid : Option String
deriving DecidableEq

/-- A row of the `messages` table as inserted by `log_message`
(src/app.py lines 215-237); `vars` holds the name/date/time mapping. -/
structure MsgRow where
  recipient : String
  message : String
  image_url : Option String
  quick_replies : Option (List String)
  vars : Option (String × String × String)
  template_used : Option String
  rowStatus : String
  message_type : String
  sid : Option String
deriving DecidableEq

/-- A row of the `conversations` table as inserted by `log_conversation`
(src/app.py lines 85-97). -/
structure ConvRow where
  phone : String
  message : String
  response : String
  intent : String
deriving DecidableEq

/- ===================== Inbound webhook (src/app.py 442-542) ===================== -/

/-- Form fields the handler reads from the provider callback
(src/app.py lines 457-461); `none` models an absent field. -/
structure WebhookForm where
  msgSid : Option String
  fromNum : Option String
  toNum : Option String
  buttonPayload : Option String
  bodyField : Option String

/-- Environment of one webhook invocation: configuration strings, the
chooser standing for `random.choice`, the outcome of the (at most two)
provider sends (`none` = the call raised) and whether the conversations
insert succeeds (a failed insert is swallowed by `log_conversation`). -/
structure WebhookEnv where
  msid : String
  templateSid : String
  pick : List String → Nat
  richSid : Option String
  smsSid : Option String
  convOk : Bool

/-- Fixed reply for a button payload containing `website` (src/app.py line 477). -/
def websiteReply : String := "🌐 Visit us at ringlypro.com or let me know what specific information you\x27re looking for!"

/-- Fixed reply for button `confirm`/`confirmed` (src/app.py line 479). -/
def confirmBtnReply : String := "✅ Perfect! Your appointment is confirmed. We\x27ll send you a reminder 24 hours before."

/-- Fixed reply for button `reschedule` (src/app.py line 481). -/
def rescheduleBtnReply : String := "📅 No problem! When would work better for you? Reply with your preferred date and time."

/-- Fixed reply for the call buttons (src/app.py line 483). -/
def callBtnReply : String := "📞 Please call us at 1-888-610-3810. We\x27re available Mon-Fri 9AM-5PM EST."

/-- Fixed reply for free-text digit `1` (src/app.py line 491). -/
def digitOneReply : String := "✅ Perfect! Your appointment is confirmed. We\x27ll see you soon!"

/-- Fixed reply for free-text digit `2` (src/app.py line 493). -/
def digitTwoReply : String := "📅 To reschedule, please call us at 1-888-610-3810 or reply with your preferred date and time."

/-- Fixed reply for free-text digit `3` (src/app.py line 495). -/
def digitThreeReply : String := "📞 Please call us at 1-888-610-3810. We\x27re available Mon-Fri 9AM-5PM EST."

/-- Fixed reply when neither a button nor a body is present (src/app.py line 505). -/
def defaultGreeting : String := "Thanks for reaching out to RinglyPro! How can I help you today?"

/-- The `response_text` computed by `handle_rcs_webhook`
(src/app.py lines 471-505): button branch first, then the stripped body
(digit replies, then the AI responder), then the default greeting. -/
def webhookResponseText (env : WebhookEnv) (form : WebhookForm) : String :=
  let body := stripStr (form.bodyField.getD "")
  if truthy form.buttonPayload then
    let b := toLowerStr (form.buttonPayload.getD "")
    if containsSub "website" b then websiteReply
    else if b == "confirm" || b == "confirmed" then confirmBtnReply
    else if b == "reschedule" then rescheduleBtnReply
    else if b == "call" || b == "call_us" || b == "call us" then callBtnReply
    else get_response env.pick (form.buttonPayload.getD "")
  else if body != "" then
    if stripStr body == "1" then digitOneReply
    else if stripStr body == "2" then digitTwoReply
    else if stripStr body == "3" then digitThreeReply
    else get_response env.pick body
  else defaultGreeting

/-- Rows inserted into `conversations` during one webhook call: only the
free-text AI branch calls `log_conversation` (src/app.py lines 496-502);
the insert is dropped when it fails, and a `None` phone violates the
NOT NULL constraint of the table so that insert also fails (swallowed at
src/app.py line 96).  The stored intent is `str(intent)`. -/
def webhookConvRows (env : WebhookEnv) (form : WebhookForm) : List ConvRow :=
  let body := stripStr (form.bodyField.getD "")
  if truthy form.buttonPayload then []
  else if body != "" then
    if stripStr body == "1" || stripStr body == "2" || stripStr body == "3" then []
    else
      match form.fromNum with
      | some p =>
          if env.convOk then
            [ ⟨p, body, get_response env.pick body, strOfIntent (detect_intent body)⟩ ]
          else []
      | none => []
  else []

/-- Provider send attempts of one webhook call (src/app.py lines
508-533): nothing is sent without a non-empty reply and a truthy `From`;
replies over 300 characters go through the content template when one is
configured, with a bare-except fallback to a plain send; otherwise a
single plain send. -/
def webhookAttempts (env : WebhookEnv) (form : WebhookForm) : List Attempt :=
  let rt := webhookResponseText env form
  if rt != "" && truthy form.fromNum then
    let dest := form.fromNum.getD ""
    if rt.length > 300 && env.templateSid != "" then
      match env.richSid with
      | some s => [⟨SendCall.templateSend env.msid dest env.templateSid rt, some s⟩]
      | none =>
          [ ⟨SendCall.templateSend env.msid dest env.templateSid rt, none⟩,
            ⟨SendCall.smsSend env.msid dest rt none, env.smsSid⟩ ]
    else [⟨SendCall.smsSend env.msid dest rt none, env.smsSid⟩]
  else []

/-- Whether an exception reaches the outer except clause of the handler
(src/app.py line 539): only an uncaught raise from the final plain send
does (the template send failure is caught by the inner bare `except`,
and `log_conversation` swallows its own errors). -/
def webhookUncaught (env : WebhookEnv) (form : WebhookForm) : Bool :=
  let rt := webhookResponseText env form
  if rt != "" && truthy form.fromNum then
    if rt.length > 300 && env.templateSid != "" then
      env.richSid.isNone && env.smsSid.isNone
    else env.smsSid.isNone
  else false

/-- Observable outcome of one webhook invocation: the HTTP response, the
computed reply, and the effect trace (conversation rows, messages rows —
the handler never writes the `messages` table — and provider sends). -/
structure WebhookResult where
  respBody : String
  status : Nat
  replyText : String
  convRows : List ConvRow
  msgRows : List MsgRow
  attempts : List Attempt
deriving DecidableEq

/-- Embedding of `handle_rcs_webhook` (src/app.py lines 442-542).  Both exits return
an empty body with status 200: line 537 on the normal path and line 542
in the outer `except` clause; the effect trace is identical because an
uncaught raise can only come from the last provider send. -/
def handle_rcs_webhook (env : WebhookEnv) (form : WebhookForm) : WebhookResult :=
  if webhookUncaught env form then
    { respBody := "", status := 200,
      replyText := webhookResponseText env form,
      convRows := webhookConvRows env form,
      msgRows := [],
      attempts := webhookAttempts env form }
  else
    { respBody := "", status := 200,
      replyText := webhookResponseText env form,
      convRows := webhookConvRows env form,
      msgRows := [],
      attempts := webhookAttempts env form }

/- ===================== POST /send-rcs (src/app.py 265-407) ===================== -/

/-- Outcome of the template create call (src/app.py line 311): a
provider message id, a `TwilioRestException` (optional error code and
message) triggering the SMS fallback, or any other exception reaching
the outer handler. -/
inductive RichOutcome where
  | ok (sid : String)
  | twilioErr (code : Option Nat) (msg : String)
  | otherErr
deriving DecidableEq

/-- Fields read off a fetched message (src/app.py lines 323-325). -/
structure FetchInfo where
  fetchStatus : String
  fromField : String
deriving DecidableEq

/-- Outcome of a `messages(...).fetch()` call: the fetched fields, a
`TwilioRestException`, or any other exception. -/
inductive FetchOutcome where
  | ok (f : FetchInfo)
  | twilioErr
  | otherErr
deriving DecidableEq

/-- Environment of one `/send-rcs` call: configuration, the outcomes of
the provider calls in program order, and whether the `messages` insert
succeeds (`log_message` swallows its own errors). -/
structure SendRcsEnv where
  msid : String
  templateSid : String
  rich : RichOutcome
  fetchRich : FetchOutcome
  smsSid : Option String
  fetchSms : Option FetchInfo
  msgOk : Bool
deriving DecidableEq

/-- JSON body of a `/send-rcs` request (src/app.py lines 274-288);
absent keys are `none`, `quick_replies` defaults to the empty list. -/
structure SendRcsReq where
  phone : Option String
  customer_name : Option String
  date : Option String
  timeOfDay : Option String
  message : Option String
  image_url : Option String
  quick_replies : List String
deriving DecidableEq

/-- Observable outcome of one `/send-rcs` call: HTTP status, provider
send attempts in order, and the rows inserted into `messages`. -/
structure SendRcsResult where
  status : Nat
  attempts : List Attempt
  msgRows : List MsgRow
deriving DecidableEq

/-- Phone normalization at src/app.py lines 279-280: prepend `+` when
absent; nothing else is checked. -/
def normalizePhone (p : String) : String :=
  if pyStartsWith p "+" then p else "+" ++ p

/-- The literal reply instructions inside the default message body
(src/app.py line 294). -/
def instrText : String := "Reply 1 to Confirm, 2 to Reschedule, or 3 to Call us."

/-- The default appointment body built at src/app.py line 294. -/
def defaultBody (name date timeOfDay : String) : String :=
  "Hi " ++ name ++ "! Your appointment is scheduled for " ++ date ++ " at " ++ timeOfDay ++
    ". Please confirm your attendance. " ++ instrText

/-- Embedding of `complete_message` (src/app.py lines 291-294): the custom message
verbatim when truthy, else the default appointment body filled with the
defaulted name/date/time. -/
def completeMessage (req : SendRcsReq) : String :=
  if truthy req.message then req.message.getD ""
  else defaultBody (req.customer_name.getD "Customer") (req.date.getD "tomorrow")
    (req.timeOfDay.getD "2:00 PM")

/-- Embedding of `quick_replies if quick_replies else None` (src/app.py line 335). -/
def qrOrNone (l : List String) : Option (List String) :=
  if l.isEmpty then none else some l

/-- The variables mapping logged with every row (src/app.py line 336). -/
def reqVars (req : SendRcsReq) : String × String × String :=
  (req.customer_name.getD "Customer", req.date.getD "tomorrow", req.timeOfDay.getD "2:00 PM")

/-- The `messages` row logged on the rich path (src/app.py lines 331-341). -/
def richRow (env : SendRcsEnv) (req : SendRcsReq) (p sid : String) (f : FetchInfo) : MsgRow :=
  { recipient := p, message := completeMessage req, image_url := req.image_url,
    quick_replies := qrOrNone req.quick_replies, vars := some (reqVars req),
    template_used := some env.templateSid, rowStatus := f.fetchStatus,
    message_type := if containsSub "rcs:" (toLowerStr f.fromField) then "RCS" else "SMS",
    sid := some sid }

/-- The `messages` row logged on the fallback path (src/app.py lines 379-389). -/
def smsRow (req : SendRcsReq) (p sid : String) (f : FetchInfo) : MsgRow :=
  { recipient := p, message := completeMessage req, image_url := req.image_url,
    quick_replies := qrOrNone req.quick_replies, vars := some (reqVars req),
    template_used := none, rowStatus := f.fetchStatus,
    message_type := if truthy req.image_url then "MMS" else "SMS",
    sid := some sid }

/-- The SMS fallback of the `except TwilioRestException` clause
(src/app.py lines 353-399): one plain send through the same messaging
service with `complete_message` as body and the media URL when truthy;
a raise from the create or the status fetch reaches the outer handler
(HTTP 500) with no row logged. -/
def fallbackRun (env : SendRcsEnv) (req : SendRcsReq) (p : String) (richAtt : Attempt) :
    SendRcsResult :=
  let smsCall := SendCall.smsSend env.msid p (completeMessage req)
    (if truthy req.image_url then req.image_url else none)
  match env.smsSid with
  | none => ⟨500, [richAtt, ⟨smsCall, none⟩], []⟩
  | some sid2 =>
      match env.fetchSms with
      | none => ⟨500, [richAtt, ⟨smsCall, some sid2⟩], []⟩
      | some f =>
          ⟨200, [richAtt, ⟨smsCall, some sid2⟩],
            if env.msgOk then [smsRow req p sid2 f] else []⟩

/-- Embedding of `send_rcs` (src/app.py lines 265-407): 400 on a falsy phone, 500 on
a missing messaging service, then a template send; on its
`TwilioRestException` (also one raised by the status fetch, which the
same `try` covers) the single SMS fallback runs; other exceptions reach
the outer handler as HTTP 500. -/
def send_rcs (env : SendRcsEnv) (req : SendRcsReq) : SendRcsResult :=
  match req.phone with
  | none => ⟨400, [], []⟩
  | some p0 =>
      if p0 == "" then ⟨400, [], []⟩
      else
        let p := normalizePhone p0
        if env.msid == "" then ⟨500, [], []⟩
        else
          let richCall := SendCall.templateSend env.msid p env.templateSid (completeMessage req)
          match env.rich with
          | RichOutcome.ok sid =>
              match env.fetchRich with
              | FetchOutcome.ok f =>
                  ⟨200, [⟨richCall, some sid⟩],
                    if env.msgOk then [richRow env req p sid f] else []⟩
              | FetchOutcome.twilioErr => fallbackRun env req p ⟨richCall, some sid⟩
              | FetchOutcome.otherErr => ⟨500, [⟨richCall, some sid⟩], []⟩
          | RichOutcome.twilioErr _ _ => fallbackRun env req p ⟨richCall, none⟩
          | RichOutcome.otherErr => ⟨500, [⟨richCall, none⟩], []⟩

/- ===================== GET /messages (src/app.py 409-436) ===================== -/

/-- A stored `messages` row together with its `timestamp` column
(DATETIME DEFAULT CURRENT_TIMESTAMP, modelled as a number that orders
the rows). -/
structure StoredMsg where
  row : MsgRow
  timestamp : Nat
deriving DecidableEq

/-- Insert into a timestamp-descending list, keeping it descending. -/
def insertDesc (x : StoredMsg) : List StoredMsg → List StoredMsg
  | [] => [x]
  | y :: ys => if y.timestamp ≤ x.timestamp then x :: y :: ys else y :: insertDesc x ys

/-- Embedding of `ORDER BY timestamp DESC` of the SELECT at src/app.py lines 417-421. -/
def sortByTimestampDesc (l : List StoredMsg) : List StoredMsg :=
  l.foldr insertDesc []

/-- SQLite `LIMIT n`: a negative limit means no limit. -/
def takeSql (n : Int) (l : List StoredMsg) : List StoredMsg :=
  if n < 0 then l else l.take n.toNat

/-- Embedding of `get_messages` (src/app.py lines 409-436): read-only SELECT ordered
newest first and bounded by the `limit` query parameter (absent or
unparsable means 50, the Flask type=int fallback).  Returns the rows
served and the store after the call (provably unchanged). -/
def get_messages (db : List StoredMsg) (limitParam : Option Int) : List StoredMsg × List StoredMsg :=
  (takeSql (limitParam.getD 50) (sortByTimestampDesc db), db)

/- ============== src/utils/rcs_payload.py ============== -/

/-- A media object of an RCS payload (src/utils/rcs_payload.py lines 34-39). -/
structure MediaObj where
  contentType : String
  url : String
  height : String
deriving DecidableEq

/-- A quick-reply suggestion; `stype` is the key named type in the dictionary. -/
structure Suggestion where
  stype : String
  text : String
  postbackData : String
deriving DecidableEq

/-- One content item of a rich card (src/utils/rcs_payload.py lines 70-93). -/
structure CardContent where
  title : String
  description : String
  media : Option MediaObj
  suggestions : Option (List Suggestion)
deriving DecidableEq

/-- A formatted rich card (src/utils/rcs_payload.py lines 64-95). -/
structure RichCard where
  orientation : String
  content : List CardContent
deriving DecidableEq

/-- The `card_config` dictionary of `format_rich_card`: optional keys as
options, a suggestion entry being either a string or an already-formed
suggestion dictionary. -/
structure CardCfg where
  orientation : Option String
  title : Option String
  description : Option String
  image_url : Option String
  image_height : Option String
  suggestions : Option (List (Sum String Suggestion))

/-- Embedding of `format_rich_card` (src/utils/rcs_payload.py lines 56-95). -/
def format_rich_card (cfg : CardCfg) : RichCard :=
  { orientation := cfg.orientation.getD "VERTICAL",
    content :=
      match cfg.title with
      | none => []
      | some t =>
          [ { title := t, description := cfg.description.getD "",
              media :=
                match cfg.image_url with
                | some u => some ⟨ "image", u, cfg.image_height.getD "MEDIUM"⟩
                | none => none,
              suggestions :=
                match cfg.suggestions with
                | some l => some (l.map (fun s =>
                    match s with
                    | Sum.inl txt => ⟨ "reply", txt, txt⟩
                    | Sum.inr d => d))
                | none => none } ] }

/-- The payload dictionary built by `create_rcs_payload`
(src/utils/rcs_payload.py lines 10-54); an absent key is `none`. -/
structure RcsPayload where
  body : String
  contentType : String
  media : Option MediaObj
  suggestions : Option (List Suggestion)
  richCard : Option RichCard

/-- Embedding of `create_rcs_payload` (src/utils/rcs_payload.py lines 10-54): media
when the image URL is truthy, at most the first 11 quick replies (each
becoming a `reply` suggestion whose text and postbackData are the input
string), no `suggestions` key when `quick_replies` is `None` or empty.
(Python truthiness of an empty dict `rich_card` argument corresponds to an
all-`none` config, which no claim exercises.) -/
def create_rcs_payload (message_body : String) (image_url : Option String)
    (quick_replies : Option (List String)) (rich_card : Option CardCfg) : RcsPayload :=
  { body := message_body,
    contentType := "text/plain",
    media :=
      if truthy image_url then some ⟨ "image", image_url.getD "", "MEDIUM"⟩ else none,
    suggestions :=
      match quick_replies with
      | some l =>
          if l.isEmpty then none
          else some ((l.take 11).map (fun t => ⟨ "reply", t, t⟩))
      | none => none,
    richCard :=
      match rich_card with
      | some cfg => some (format_rich_card cfg)
      | none => none }

/-- The cleaning step of `validate_phone_number`
(src/utils/rcs_payload.py line 185): keep digits and `+` only. -/
def cleanPhone (phone : String) : String :=
  String.mk (phone.data.filter (fun c => c.isDigit || c == '+'))

/-- The `+`-prefixing step of `validate_phone_number`
(src/utils/rcs_payload.py lines 188-193): keep a leading `+`; a bare
10-digit string gets `+1`, anything else a bare `+`. -/
def prefixedClean (phone : String) : String :=
  let cleaned := cleanPhone phone
  if pyStartsWith cleaned "+" then cleaned
  else if cleaned.length == 10 then "+1" ++ cleaned
  else "+" ++ cleaned

/-- Embedding of `validate_phone_number` (src/utils/rcs_payload.py lines 171-199):
`ValueError` (modelled as `Except.error` with the message) exactly when
the prefixed cleaned string is shorter than 11 or longer than 16
characters, else the prefixed cleaned string. -/
def validate_phone_number (phone : String) : Except String String :=
  let c := prefixedClean phone
  if c.length < 11 ∨ c.length > 16 then
    Except.error ("Invalid phone number: " ++ phone)
  else Except.ok c

/- ===================== Helper lemmas ===================== -/

theorem handle_status (env : WebhookEnv) (form : WebhookForm) :
    (handle_rcs_webhook env form).status = 200 := by
  unfold handle_rcs_webhook; split <;> rfl

theorem handle_respBody (env : WebhookEnv) (form : WebhookForm) :
    (handle_rcs_webhook env form).respBody = "" := by
  unfold handle_rcs_webhook; split <;> rfl

theorem handle_replyText (env : WebhookEnv) (form : WebhookForm) :
    (handle_rcs_webhook env form).replyText = webhookResponseText env form := by
  unfold handle_rcs_webhook; split <;> rfl

theorem handle_convRows (env : WebhookEnv) (form : WebhookForm) :
    (handle_rcs_webhook env form).convRows = webhookConvRows env form := by
  unfold handle_rcs_webhook; split <;> rfl

theorem handle_msgRows (env : WebhookEnv) (form : WebhookForm) :
    (handle_rcs_webhook env form).msgRows = [] := by
  unfold handle_rcs_webhook; split <;> rfl

theorem handle_attempts (env : WebhookEnv) (form : WebhookForm) :
    (handle_rcs_webhook env form).attempts = webhookAttempts env form := by
  unfold handle_rcs_webhook; split <;> rfl

theorem head?_dropWhile_not {α : Type} (p : α → Bool) (l : List α) :
    ∀ a, (l.dropWhile p).head? = some a → p a = false := by
  induction l with
  | nil => intro a h; simp at h
  | cons b t ih =>
      intro a h
      by_cases hb : p b
      · rw [List.dropWhile_cons_of_pos hb] at h; exact ih a h
      · rw [List.dropWhile_cons_of_neg hb] at h
        simp only [List.head?_cons, Option.some.injEq] at h
        subst h
        exact Bool.eq_false_iff.mpr hb

theorem dropWhile_eq_self_of_head {α : Type} (p : α → Bool) (l : List α)
    (h : ∀ a, l.head? = some a → p a = false) : l.dropWhile p = l := by
  cases l with
  | nil => rfl
  | cons a t =>
      rw [List.dropWhile_cons_of_neg]
      simp [h a rfl]

theorem stripStr_idem (s : String) : stripStr (stripStr s) = stripStr s := by
  have key : ∀ l : List Char,
      List.dropWhile isSpaceChar (List.rdropWhile isSpaceChar (List.dropWhile isSpaceChar l))
        = List.rdropWhile isSpaceChar (List.dropWhile isSpaceChar l) := by
    intro l
    apply dropWhile_eq_self_of_head
    intro a ha
    obtain ⟨t, ht⟩ := List.rdropWhile_prefix (p := isSpaceChar)
      (l := List.dropWhile isSpaceChar l)
    apply head?_dropWhile_not isSpaceChar l a
    rw [← ht]
    cases hre : List.rdropWhile isSpaceChar (List.dropWhile isSpaceChar l) with
    | nil => rw [hre] at ha; simp at ha
    | cons b r2 =>
        rw [hre] at ha
        simp only [List.head?_cons, Option.some.injEq] at ha
        subst ha
        rfl
  unfold stripStr
  have hmk : ∀ l : List Char, (String.mk l).data = l := fun l => rfl
  simp only [hmk]
  have hrd : ∀ l : List Char,
      ((l.dropWhile isSpaceChar).reverse.dropWhile isSpaceChar).reverse
        = List.rdropWhile isSpaceChar (l.dropWhile isSpaceChar) := by
    intro l; rfl
  rw [hrd, hrd, key, List.rdropWhile_idempotent]

/- ===================== Claim C5 ===================== -/

/-- C5: for every inbound webhook request, including every one whose
internal processing raises (any combination of failing provider sends in
the environment), `handle_rcs_webhook` returns HTTP 200 with an empty
body; the handler is a total function, so no exception escapes it. -/
theorem c5_webhook_always_200_empty (env : WebhookEnv) (form : WebhookForm) :
    (handle_rcs_webhook env form).status = 200 ∧
      (handle_rcs_webhook env form).respBody = "" :=
  ⟨handle_status env form, handle_respBody env form⟩

/- ===================== Claim C4 ===================== -/

/-- C4 counterexample: the free-text reply for body `1` and the button
reply for payload `confirm` are different fixed strings, refuting the
claim that they are the same string. -/
theorem c4_replies_differ_cex :
    (handle_rcs_webhook ⟨ "MS", "HX", fun _ => 0, some "SM1", some "SM2", true⟩
        ⟨some "IM1", some "+15550001111", some "+18886103810", none, some "1"⟩).replyText
      = digitOneReply
    ∧ (handle_rcs_webhook ⟨ "MS", "HX", fun _ => 0, some "SM1", some "SM2", true⟩
        ⟨some "IM2", some "+15550001111", some "+18886103810", some "confirm", none⟩).replyText
      = confirmBtnReply
    ∧ digitOneReply ≠ confirmBtnReply := by
  refine ⟨?_, ?_, by decide⟩ <;> rw [handle_replyText] <;> decide

/-- C4 amended: free text `1` yields the fixed digit-confirmation reply
and button `confirm` (any case) yields the fixed button-confirmation
reply, but the two texts differ (the digit reply ends `see you soon`,
the button reply promises a 24-hour reminder). -/
theorem c4_digit_one_reply :
    (∀ env form, truthy form.buttonPayload = false →
        stripStr (form.bodyField.getD "") = "1" →
        (handle_rcs_webhook env form).replyText = digitOneReply)
    ∧ (∀ env form bp, form.buttonPayload = some bp → toLowerStr bp = "confirm" →
        (handle_rcs_webhook env form).replyText = confirmBtnReply)
    ∧ digitOneReply ≠ confirmBtnReply := by
  refine ⟨?_, ?_, by decide⟩
  · intro env form hbtn hbody
    rw [handle_replyText]
    unfold webhookResponseText
    rw [hbtn, hbody]
    rw [if_neg (by decide), if_pos (by decide), if_pos (by decide)]
  · intro env form bp hbp hlow
    have hne : bp ≠ "" := by
      intro h
      rw [h] at hlow
      exact absurd hlow (by decide)
    rw [handle_replyText]
    unfold webhookResponseText
    have htr : truthy form.buttonPayload = true := by
      simp [truthy, hbp, hne]
    rw [htr, hbp]
    simp only [Option.getD_some, hlow]
    rw [if_pos trivial, if_neg (by decide), if_pos (by decide)]

/-- Witness for `c4_digit_one_reply` at body `" 1 "` and at button
payload `CONFIRM`. -/
theorem c4_digit_one_reply_witness :
    (handle_rcs_webhook ⟨ "MS", "HX", fun _ => 0, some "SM1", some "SM2", true⟩
        ⟨some "IM3", some "+15550001111", some "+18886103810", none, some " 1 "⟩).replyText
      = digitOneReply
    ∧ (handle_rcs_webhook ⟨ "MS", "HX", fun _ => 0, some "SM1", some "SM2", true⟩
        ⟨some "IM4", some "+15550001111", some "+18886103810", some "CONFIRM", none⟩).replyText
      = confirmBtnReply :=
  ⟨c4_digit_one_reply.1 _ _ (by decide) (by decide),
   c4_digit_one_reply.2.1 _ _ "CONFIRM" rfl (by decide)⟩

/- ===================== Claim C6 ===================== -/

set_option maxRecDepth 16384 in
/-- C6 counterexample: unmatched free text `asdkjasd` does yield the
generic menu reply, but the ConversationTurn row stores the literal
string `"None"` (Python `str(None)`) as its intent, which is neither
null nor empty — `log_conversation` is always handed a string. -/
theorem c6_intent_stored_as_none_cex :
    (handle_rcs_webhook ⟨ "MS", "HX", fun _ => 0, some "SM1", some "SM2", true⟩
        ⟨some "IM5", some "+15550001111", some "+18886103810", none, some "asdkjasd"⟩).replyText
      = defaultMenu
    ∧ (handle_rcs_webhook ⟨ "MS", "HX", fun _ => 0, some "SM1", some "SM2", true⟩
        ⟨some "IM5", some "+15550001111", some "+18886103810", none, some "asdkjasd"⟩).convRows
      = [⟨ "+15550001111", "asdkjasd", defaultMenu, "None"⟩]
    ∧ ("None" : String) ≠ "" := by
  refine ⟨?_, ?_, by decide⟩
  · rw [handle_replyText]; decide
  · rw [handle_convRows]; decide

/-- C6 amended: inbound free text that is not a digit reply, matches no
intent pattern and contains no yes/no keyword yields the fixed generic
menu reply, and the ConversationTurn row stores the literal string
`"None"` as its matched intent (not a null or empty value). -/
theorem c6_unmatched_default_menu (env : WebhookEnv) (form : WebhookForm) (p : String)
    (hbtn : truthy form.buttonPayload = false)
    (hfrom : form.fromNum = some p)
    (hbody : stripStr (form.bodyField.getD "") ≠ "")
    (h1 : stripStr (form.bodyField.getD "") ≠ "1")
    (h2 : stripStr (form.bodyField.getD "") ≠ "2")
    (h3 : stripStr (form.bodyField.getD "") ≠ "3")
    (hint : detect_intent (stripStr (form.bodyField.getD "")) = none)
    (hyes : yesWords.any
      (fun w => containsSub w (toLowerStr (stripStr (form.bodyField.getD "")))) = false)
    (hno : noWords.any
      (fun w => containsSub w (toLowerStr (stripStr (form.bodyField.getD "")))) = false)
    (hconv : env.convOk = true) :
    (handle_rcs_webhook env form).replyText = defaultMenu
    ∧ (handle_rcs_webhook env form).convRows
        = [⟨p, stripStr (form.bodyField.getD ""), defaultMenu, "None"⟩] := by
  have hid := stripStr_idem (form.bodyField.getD "")
  have hgr : get_response env.pick (stripStr (form.bodyField.getD "")) = defaultMenu := by
    unfold get_response
    rw [hint]
    simp only [hyes, hno, Bool.false_eq_true, if_false]
  constructor
  · rw [handle_replyText]
    unfold webhookResponseText
    rw [hbtn]
    simp only [Bool.false_eq_true, if_false]
    rw [if_pos (by simp [bne_iff_ne, hbody]), hid,
      if_neg (by simp [beq_iff_eq, h1]), if_neg (by simp [beq_iff_eq, h2]),
      if_neg (by simp [beq_iff_eq, h3])]
    exact hgr
  · rw [handle_convRows]
    unfold webhookConvRows
    rw [hbtn]
    simp only [Bool.false_eq_true, if_false]
    rw [if_pos (by simp [bne_iff_ne, hbody]), hid,
      if_neg (by simp [beq_iff_eq, h1, h2, h3]), hfrom]
    simp only [hconv, if_true]
    rw [hgr, hint]
    rfl

/-- Witness for `c6_unmatched_default_menu` at body `zzzq`. -/
theorem c6_unmatched_default_menu_witness :
    (handle_rcs_webhook ⟨ "MS", "HX", fun _ => 0, some "SM1", some "SM2", true⟩
        ⟨some "IM7", some "+15550002222", some "+18886103810", none, some "zzzq"⟩).replyText
      = defaultMenu
    ∧ (handle_rcs_webhook ⟨ "MS", "HX", fun _ => 0, some "SM1", some "SM2", true⟩
        ⟨some "IM7", some "+15550002222", some "+18886103810", none, some "zzzq"⟩).convRows
      = [⟨ "+15550002222", stripStr "zzzq", defaultMenu, "None"⟩] :=
  c6_unmatched_default_menu _ _ "+15550002222" (by decide) rfl (by decide) (by decide)
    (by decide) (by decide) (by decide) (by decide) (by decide) rfl

/- ===================== Claim C2 ===================== -/

/-- C2 counterexample: a button click (`confirm`) computes a non-empty
reply but inserts no ConversationTurn row even though the insert would
succeed, refuting the claim that every non-empty reply produces one. -/
theorem c2_button_click_unlogged_cex :
    (handle_rcs_webhook ⟨ "MS", "HX", fun _ => 0, some "SM1", some "SM2", true⟩
        ⟨some "IM8", some "+15550001111", some "+18886103810", some "confirm", none⟩).replyText
      = confirmBtnReply
    ∧ confirmBtnReply ≠ ""
    ∧ (handle_rcs_webhook ⟨ "MS", "HX", fun _ => 0, some "SM1", some "SM2", true⟩
        ⟨some "IM8", some "+15550001111", some "+18886103810", some "confirm", none⟩).convRows
      = [] := by
  refine ⟨?_, by decide, ?_⟩
  · rw [handle_replyText]; decide
  · rw [handle_convRows]; decide

/-- C2 amended: only the free-text AI path (no button, non-empty body
that is not a digit reply) inserts a ConversationTurn row — exactly one
when `From` is present and the insert succeeds; button clicks, digit
replies and empty bodies insert none; a failed insert is swallowed and
leaves the computed reply and the provider sends unchanged. -/
theorem c2_conversation_rows (env : WebhookEnv) (form : WebhookForm) :
    (truthy form.buttonPayload = true → (handle_rcs_webhook env form).convRows = [])
    ∧ (stripStr (form.bodyField.getD "") = "" →
        (handle_rcs_webhook env form).convRows = [])
    ∧ (stripStr (form.bodyField.getD "") = "1" ∨ stripStr (form.bodyField.getD "") = "2"
        ∨ stripStr (form.bodyField.getD "") = "3" →
        (handle_rcs_webhook env form).convRows = [])
    ∧ (∀ p, truthy form.buttonPayload = false → form.fromNum = some p →
        stripStr (form.bodyField.getD "") ≠ "" →
        stripStr (form.bodyField.getD "") ≠ "1" →
        stripStr (form.bodyField.getD "") ≠ "2" →
        stripStr (form.bodyField.getD "") ≠ "3" →
        env.convOk = true →
        (handle_rcs_webhook env form).convRows
          = [⟨p, stripStr (form.bodyField.getD ""),
              get_response env.pick (stripStr (form.bodyField.getD "")),
              strOfIntent (detect_intent (stripStr (form.bodyField.getD "")))⟩])
    ∧ (env.convOk = false → (handle_rcs_webhook env form).convRows = [])
    ∧ (∀ m t pk r s,
        (handle_rcs_webhook ⟨m, t, pk, r, s, false⟩ form).replyText
          = (handle_rcs_webhook ⟨m, t, pk, r, s, true⟩ form).replyText
        ∧ (handle_rcs_webhook ⟨m, t, pk, r, s, false⟩ form).attempts
          = (handle_rcs_webhook ⟨m, t, pk, r, s, true⟩ form).attempts) := by
  have hid := stripStr_idem (form.bodyField.getD "")
  refine ⟨?_, ?_, ?_, ?_, ?_, ?_⟩
  · intro hbtn
    rw [handle_convRows]
    unfold webhookConvRows
    rw [hbtn]
    simp
  · intro hbody
    rw [handle_convRows]
    unfold webhookConvRows
    rw [hbody]
    simp
  · intro hdig
    rw [handle_convRows]
    unfold webhookConvRows
    dsimp only
    have hcond : (stripStr (stripStr (form.bodyField.getD "")) == "1"
        || stripStr (stripStr (form.bodyField.getD "")) == "2"
        || stripStr (stripStr (form.bodyField.getD "")) == "3") = true := by
      rw [hid]
      rcases hdig with h | h | h <;> simp [h]
    simp only [hcond]
    repeat' split
    all_goals first | rfl | simp_all
  · intro p hbtn hfrom hbody h1 h2 h3 hconv
    rw [handle_convRows]
    unfold webhookConvRows
    rw [hbtn]
    simp only [Bool.false_eq_true, if_false]
    rw [if_pos (by simp [bne_iff_ne, hbody]), hid,
      if_neg (by simp [beq_iff_eq, h1, h2, h3]), hfrom]
    simp only [hconv, if_true]
  · intro hconv
    rw [handle_convRows]
    unfold webhookConvRows
    rw [hconv]
    rcases form.buttonPayload with _ | bp <;> rcases form.fromNum with _ | p <;> simp
  · intro m t pk r s
    constructor
    · rw [handle_replyText, handle_replyText]; rfl
    · rw [handle_attempts, handle_attempts]; rfl

/-- Witness for `c2_conversation_rows` on the free-text AI path at body
`pizza`. -/
theorem c2_conversation_rows_witness :
    (handle_rcs_webhook ⟨ "MS", "HX", fun _ => 0, some "SM1", some "SM2", true⟩
        ⟨some "IM6", some "+15550001111", some "+18886103810", none, some "pizza"⟩).convRows
      = [⟨ "+15550001111", stripStr "pizza",
          get_response (fun _ => 0) (stripStr "pizza"),
          strOfIntent (detect_intent (stripStr "pizza"))⟩] :=
  (c2_conversation_rows _ _).2.2.2.1 "+15550001111" (by decide) rfl (by decide) (by decide)
    (by decide) (by decide) rfl

/- ===================== Claim C7 ===================== -/

/-- C7: for every `/send-rcs` request whose phone value does not begin
with `+` (and passes the falsy-phone and configuration guards), the
first gateway call is addressed to `+` prepended to the phone value,
for an arbitrary string — no further validation happens. -/
theorem c7_phone_plus_prepended (env : SendRcsEnv) (req : SendRcsReq) (p : String)
    (hph : req.phone = some p) (hp : p ≠ "") (hplus : pyStartsWith p "+" = false)
    (hms : env.msid ≠ "") :
    ((send_rcs env req).attempts.head?.map (fun a => a.call))
      = some (SendCall.templateSend env.msid ("+" ++ p) env.templateSid
          (completeMessage req)) := by
  obtain ⟨msid, tsid, rich, fRich, sSid, fSms, mOk⟩ := env
  simp only at hms
  unfold send_rcs
  rw [hph]
  dsimp only
  rw [if_neg (by simp [hp]), if_neg (by simp [hms])]
  cases rich <;> cases fRich <;> cases sSid <;> cases fSms <;>
    simp [fallbackRun, normalizePhone, hplus]

/-- Witness for `c7_phone_plus_prepended` at phone `15551234567`. -/
theorem c7_phone_plus_prepended_witness :
    ((send_rcs ⟨ "MS", "HX", RichOutcome.ok "SM1", FetchOutcome.ok ⟨ "sent", "rcs:agent"⟩,
          none, none, true⟩
        ⟨some "15551234567", none, none, none, none, none, []⟩).attempts.head?.map
          (fun a => a.call))
      = some (SendCall.templateSend "MS" ("+" ++ "15551234567") "HX"
          (completeMessage ⟨some "15551234567", none, none, none, none, none, []⟩)) :=
  c7_phone_plus_prepended _ _ "15551234567" rfl (by decide) (by decide) (by decide)

/- ===================== Claim C3 ===================== -/

theorem startsWithL_refl (l : List Char) : startsWithL l l = true := by
  induction l with
  | nil => rfl
  | cons a t ih => simp [startsWithL, ih]

theorem subList_append_left (n pre : List Char) : subList n (pre ++ n) = true := by
  induction pre with
  | nil =>
      cases n with
      | nil => rfl
      | cons a t => simp [subList, startsWithL_refl]
  | cons b pre2 ih => simp [subList, ih]

theorem subList_append_of (n l pre : List Char) (h : subList n l = true) :
    subList n (pre ++ l) = true := by
  induction pre with
  | nil => simpa using h
  | cons b pre2 ih => simp [subList, ih]

theorem containsSub_instr_defaultBody (n d t : String) :
    containsSub instrText (defaultBody n d t) = true := by
  unfold containsSub defaultBody
  simp only [String.data_append, List.append_assoc]
  apply subList_append_of
  apply subList_append_of
  apply subList_append_of
  apply subList_append_of
  apply subList_append_of
  apply subList_append_of
  apply subList_append_of
  simpa using subList_append_left instrText.data []

/-- C3 counterexample: with a custom message (`Hello`) the gateway
rejection triggers exactly one SMS fallback whose body is the custom
message verbatim — it does not contain the claimed literal instructions
"Reply 1 to Confirm, 2 to Reschedule, 3 to Call Us" (the instruction
string in the code reads ", or 3 to Call us." anyway). -/
theorem c3_custom_message_no_instructions_cex :
    (send_rcs ⟨ "MS", "HX", RichOutcome.twilioErr (some 63016) "template not found",
        FetchOutcome.otherErr, some "SM2", some ⟨ "sent", "+18886103810"⟩, true⟩
      ⟨some "+15550001111", none, none, none, some "Hello", none, []⟩).attempts
      = [ ⟨SendCall.templateSend "MS" "+15550001111" "HX" "Hello", none⟩,
          ⟨SendCall.smsSend "MS" "+15550001111" "Hello" none, some "SM2"⟩ ]
    ∧ containsSub "Reply 1 to Confirm, 2 to Reschedule, 3 to Call Us" "Hello" = false := by
  decide

/-- C3 amended: when the gateway rejects the rich send with a provider
error, exactly one fallback SMS attempt follows through the same
messaging service and no further retry occurs; its body is the same
complete message — the custom message verbatim (with nothing appended),
or the default appointment body carrying the same name/date/time plus
the literal instructions "Reply 1 to Confirm, 2 to Reschedule, or 3 to
Call us.". -/
theorem c3_single_sms_fallback (env : SendRcsEnv) (req : SendRcsReq) (p : String)
    (c : Option Nat) (m : String)
    (hph : req.phone = some p) (hp : p ≠ "") (hms : env.msid ≠ "")
    (hrich : env.rich = RichOutcome.twilioErr c m) :
    (send_rcs env req).attempts
      = [ ⟨SendCall.templateSend env.msid (normalizePhone p) env.templateSid
            (completeMessage req), none⟩,
          ⟨SendCall.smsSend env.msid (normalizePhone p) (completeMessage req)
            (if truthy req.image_url then req.image_url else none), env.smsSid⟩ ]
    ∧ (truthy req.message = true → completeMessage req = req.message.getD "")
    ∧ (truthy req.message = false →
        completeMessage req = defaultBody (req.customer_name.getD "Customer")
          (req.date.getD "tomorrow") (req.timeOfDay.getD "2:00 PM")
        ∧ containsSub instrText (completeMessage req) = true) := by
  obtain ⟨msid, tsid, rich, fRich, sSid, fSms, mOk⟩ := env
  simp only at hms hrich
  subst hrich
  refine ⟨?_, ?_, ?_⟩
  · unfold send_rcs
    rw [hph]
    dsimp only
    rw [if_neg (by simp [hp]), if_neg (by simp [hms])]
    cases sSid <;> cases fSms <;> simp [fallbackRun]
  · intro h
    simp [completeMessage, h]
  · intro h
    have hc : completeMessage req = defaultBody (req.customer_name.getD "Customer")
        (req.date.getD "tomorrow") (req.timeOfDay.getD "2:00 PM") := by
      simp [completeMessage, h]
    exact ⟨hc, by rw [hc]; exact containsSub_instr_defaultBody _ _ _⟩

/-- Witness for `c3_single_sms_fallback` on a default-template request. -/
theorem c3_single_sms_fallback_witness :
    (send_rcs ⟨ "MS", "HX", RichOutcome.twilioErr (some 21655) "invalid content sid",
        FetchOutcome.otherErr, some "SM3", some ⟨ "sent", "+18886103810"⟩, true⟩
      ⟨some "5550003333", some "Ana", some "Friday", some "3:30 PM", none, none,
        []⟩).attempts.length = 2
    ∧ containsSub instrText (completeMessage
        ⟨some "5550003333", some "Ana", some "Friday", some "3:30 PM", none, none, []⟩)
      = true := by
  have h := c3_single_sms_fallback
    ⟨ "MS", "HX", RichOutcome.twilioErr (some 21655) "invalid content sid",
      FetchOutcome.otherErr, some "SM3", some ⟨ "sent", "+18886103810"⟩, true⟩
    ⟨some "5550003333", some "Ana", some "Friday", some "3:30 PM", none, none, []⟩
    "5550003333" (some 21655) "invalid content sid" rfl (by decide) (by decide) rfl
  exact ⟨by rw [h.1]; rfl, (h.2.2 (by decide)).2⟩

/- ===================== Claim C1 ===================== -/

/-- C1 counterexample: a webhook invocation performs a provider send
that yields a message id, yet inserts no row at all into the messages
store — the webhook responder never calls `log_message`. -/
theorem c1_webhook_send_unlogged_cex :
    ((handle_rcs_webhook ⟨ "MS", "HX", fun _ => 0, some "SM1", some "SM2", true⟩
        ⟨some "IM9", some "+15550001111", some "+18886103810", none, some "2"⟩).attempts.filter
          (fun a => a.sid.isSome)).length = 1
    ∧ (handle_rcs_webhook ⟨ "MS", "HX", fun _ => 0, some "SM1", some "SM2", true⟩
        ⟨some "IM9", some "+15550001111", some "+18886103810", none, some "2"⟩).msgRows
      = [] := by
  refine ⟨?_, handle_msgRows _ _⟩
  rw [handle_attempts]
  decide

/-- C1 amended: only `/send-rcs` logs to the messages store, and there
only an attempt that yields a provider id and whose status fetch and
store insert both succeed produces exactly one row, with channel and id
matching that attempt; a failed status fetch or a failed store insert
leaves no row (a `TwilioRestException` from the rich-path fetch instead
routes to the fallback, whose single row matches the fallback attempt);
webhook-responder sends are never logged. -/
theorem c1_row_per_provider_id (env : SendRcsEnv) (req : SendRcsReq) (p : String)
    (hph : req.phone = some p) (hp : p ≠ "") (hms : env.msid ≠ "") :
    (∀ sid f, env.msgOk = true → env.rich = RichOutcome.ok sid →
        env.fetchRich = FetchOutcome.ok f →
        (send_rcs env req).msgRows.map (fun r => (r.sid, r.message_type))
          = [(some sid, if containsSub "rcs:" (toLowerStr f.fromField) then "RCS" else "SMS")]
        ∧ (send_rcs env req).attempts
          = [⟨SendCall.templateSend env.msid (normalizePhone p) env.templateSid
              (completeMessage req), some sid⟩])
    ∧ (∀ sid2 f c m, env.msgOk = true → env.rich = RichOutcome.twilioErr c m →
        env.smsSid = some sid2 → env.fetchSms = some f →
        (send_rcs env req).msgRows.map (fun r => (r.sid, r.message_type))
          = [(some sid2, if truthy req.image_url then "MMS" else "SMS")])
    ∧ (∀ sid, env.rich = RichOutcome.ok sid → env.fetchRich = FetchOutcome.otherErr →
        (send_rcs env req).msgRows = [])
    ∧ (∀ c m, env.rich = RichOutcome.twilioErr c m → env.fetchSms = none →
        (send_rcs env req).msgRows = [])
    ∧ (env.msgOk = false → (send_rcs env req).msgRows = [])
    ∧ (∀ sid sid2 f, env.msgOk = true → env.rich = RichOutcome.ok sid →
        env.fetchRich = FetchOutcome.twilioErr → env.smsSid = some sid2 →
        env.fetchSms = some f →
        (send_rcs env req).msgRows.map (fun r => (r.sid, r.message_type))
          = [(some sid2, if truthy req.image_url then "MMS" else "SMS")]
        ∧ (send_rcs env req).attempts
          = [ ⟨SendCall.templateSend env.msid (normalizePhone p) env.templateSid
                (completeMessage req), some sid⟩,
              ⟨SendCall.smsSend env.msid (normalizePhone p) (completeMessage req)
                (if truthy req.image_url then req.image_url else none), some sid2⟩ ])
    ∧ (∀ wenv wform, (handle_rcs_webhook wenv wform).msgRows = []) := by
  obtain ⟨msid, tsid, rich, fRich, sSid, fSms, mOk⟩ := env
  simp only at hms
  refine ⟨?_, ?_, ?_, ?_, ?_, ?_, fun wenv wform => handle_msgRows wenv wform⟩
  · intro sid f hins hr hf
    simp only at hins hr hf
    subst hins; subst hr; subst hf
    unfold send_rcs
    rw [hph]
    dsimp only
    rw [if_neg (by simp [hp]), if_neg (by simp [hms])]
    simp [richRow]
  · intro sid2 f c m hins hr hs hf
    simp only at hins hr hs hf
    subst hins; subst hr; subst hs; subst hf
    unfold send_rcs
    rw [hph]
    dsimp only
    rw [if_neg (by simp [hp]), if_neg (by simp [hms])]
    simp [fallbackRun, smsRow]
  · intro sid hr hf
    simp only at hr hf
    subst hr; subst hf
    unfold send_rcs
    rw [hph]
    dsimp only
    rw [if_neg (by simp [hp]), if_neg (by simp [hms])]
  · intro c m hr hfs
    simp only at hr hfs
    subst hr; subst hfs
    unfold send_rcs
    rw [hph]
    dsimp only
    rw [if_neg (by simp [hp]), if_neg (by simp [hms])]
    cases sSid <;> simp [fallbackRun]
  · intro hins
    simp only at hins
    subst hins
    unfold send_rcs
    rw [hph]
    dsimp only
    rw [if_neg (by simp [hp]), if_neg (by simp [hms])]
    cases rich <;> cases fRich <;> cases sSid <;> cases fSms <;>
      simp [fallbackRun, richRow, smsRow]
  · intro sid sid2 f hins hr hf hs hfs
    simp only at hins hr hf hs hfs
    subst hins; subst hr; subst hf; subst hs; subst hfs
    unfold send_rcs
    rw [hph]
    dsimp only
    rw [if_neg (by simp [hp]), if_neg (by simp [hms])]
    simp [fallbackRun, smsRow]

/-- Witness for `c1_row_per_provider_id` on a successful rich send. -/
theorem c1_row_per_provider_id_witness :
    (send_rcs ⟨ "MS", "HX", RichOutcome.ok "SM1", FetchOutcome.ok ⟨ "sent", "rcs:agent"⟩,
        none, none, true⟩
      ⟨some "+15550004444", none, none, none, none, none, []⟩).msgRows.map
        (fun r => (r.sid, r.message_type))
      = [(some "SM1", if containsSub "rcs:" (toLowerStr "rcs:agent") then "RCS" else "SMS")] :=
  ((c1_row_per_provider_id _ _ "+15550004444" rfl (by decide) (by decide)).1
    "SM1" ⟨ "sent", "rcs:agent"⟩ rfl rfl rfl).1

/- ===================== Claim C8 ===================== -/

theorem mem_insertDesc {x z : StoredMsg} {l : List StoredMsg} :
    z ∈ insertDesc x l ↔ z = x ∨ z ∈ l := by
  induction l with
  | nil => simp [insertDesc]
  | cons y ys ih =>
      unfold insertDesc
      by_cases h : y.timestamp ≤ x.timestamp
      · simp [h]
      · simp only [h, if_false, List.mem_cons, ih]
        tauto

theorem pairwise_insertDesc (x : StoredMsg) (l : List StoredMsg)
    (h : l.Pairwise (fun a b => b.timestamp ≤ a.timestamp)) :
    (insertDesc x l).Pairwise (fun a b => b.timestamp ≤ a.timestamp) := by
  induction l with
  | nil => simp [insertDesc]
  | cons y ys ih =>
      rw [List.pairwise_cons] at h
      obtain ⟨hy, hys⟩ := h
      unfold insertDesc
      by_cases hc : y.timestamp ≤ x.timestamp
      · rw [if_pos hc, List.pairwise_cons]
        refine ⟨?_, ?_⟩
        · intro z hz
          rcases List.mem_cons.mp hz with rfl | hz2
          · exact hc
          · exact le_trans (hy z hz2) hc
        · rw [List.pairwise_cons]
          exact ⟨hy, hys⟩
      · rw [if_neg hc, List.pairwise_cons]
        refine ⟨?_, ih hys⟩
        intro z hz
        rcases mem_insertDesc.mp hz with rfl | hz2
        · exact le_of_not_le hc
        · exact hy z hz2

theorem pairwise_sortDesc (l : List StoredMsg) :
    (sortByTimestampDesc l).Pairwise (fun a b => b.timestamp ≤ a.timestamp) := by
  induction l with
  | nil => simp [sortByTimestampDesc]
  | cons a t ih => exact pairwise_insertDesc a _ ih

theorem mem_sortDesc {z : StoredMsg} {l : List StoredMsg} :
    z ∈ sortByTimestampDesc l ↔ z ∈ l := by
  induction l with
  | nil => simp [sortByTimestampDesc]
  | cons a t ih =>
      show z ∈ insertDesc a (sortByTimestampDesc t) ↔ _
      rw [mem_insertDesc, ih]
      simp

/-- C8: `GET /messages?limit=N` serves at most `N` rows for every
non-negative `N`, every served row comes from the store, the served
sequence is newest-first by timestamp, the store is unchanged, and an
absent limit behaves as limit 50. -/
theorem c8_messages_read (db : List StoredMsg) (n : Nat) (limitParam : Option Int) :
    (get_messages db (some (n : Int))).1.length ≤ n
    ∧ (get_messages db limitParam).1.Pairwise (fun a b => b.timestamp ≤ a.timestamp)
    ∧ (∀ r, r ∈ (get_messages db limitParam).1 → r ∈ db)
    ∧ (get_messages db limitParam).2 = db
    ∧ get_messages db none = get_messages db (some 50) := by
  refine ⟨?_, ?_, ?_, rfl, rfl⟩
  · show (takeSql ((n : Nat) : Int) (sortByTimestampDesc db)).length ≤ n
    unfold takeSql
    rw [if_neg (by omega)]
    simp
  · show (takeSql (limitParam.getD 50) (sortByTimestampDesc db)).Pairwise _
    unfold takeSql
    split
    · exact pairwise_sortDesc db
    · exact List.Pairwise.sublist (List.take_sublist _ _) (pairwise_sortDesc db)
  · intro r hr
    replace hr : r ∈ takeSql (limitParam.getD 50) (sortByTimestampDesc db) := hr
    unfold takeSql at hr
    split at hr
    · exact mem_sortDesc.mp hr
    · exact mem_sortDesc.mp (List.mem_of_mem_take hr)

/-- Witness for `c8_messages_read` on a two-row store with limit 2. -/
theorem c8_messages_read_witness :
    (get_messages
        [ ⟨⟨ "+15550001111", "a", none, none, none, none, "sent", "SMS", some "S1"⟩, 5⟩,
          ⟨⟨ "+15550002222", "b", none, none, none, none, "sent", "RCS", some "S2"⟩, 9⟩ ]
      (some 1)).1.length ≤ 1
    ∧ (⟨⟨ "+15550002222", "b", none, none, none, none, "sent", "RCS", some "S2"⟩, 9⟩ : StoredMsg)
      ∈ [ ⟨⟨ "+15550001111", "a", none, none, none, none, "sent", "SMS", some "S1"⟩, 5⟩,
          (⟨⟨ "+15550002222", "b", none, none, none, none, "sent", "RCS", some "S2"⟩, 9⟩ :
            StoredMsg) ] := by
  have h := c8_messages_read
    [ ⟨⟨ "+15550001111", "a", none, none, none, none, "sent", "SMS", some "S1"⟩, 5⟩,
      ⟨⟨ "+15550002222", "b", none, none, none, none, "sent", "RCS", some "S2"⟩, 9⟩ ] 1 (some 1)
  exact ⟨h.1, h.2.2.1 _ (by decide)⟩

/- ===================== Claim C9 ===================== -/

theorem pyStartsWith_plus_append (s : String) : pyStartsWith ("+" ++ s) "+" = true := by
  rfl

theorem pyStartsWith_plus1_append (s : String) : pyStartsWith ("+1" ++ s) "+" = true := by
  rfl

theorem pyStartsWith_prefixedClean (phone : String) :
    pyStartsWith (prefixedClean phone) "+" = true := by
  unfold prefixedClean
  dsimp only
  split
  · assumption
  · split
    · exact pyStartsWith_plus1_append _
    · exact pyStartsWith_plus_append _

/-- C9: `validate_phone_number` either returns a string beginning with
`+` of length 11..16 or raises `ValueError`; it raises exactly when the
cleaned, `+`-prefixed string falls outside that length range; and a
10-character cleaned input without `+` is returned as `+1` followed by
the cleaned digits. -/
theorem c9_validate_phone (phone : String) :
    (∀ r, validate_phone_number phone = Except.ok r →
        pyStartsWith r "+" = true ∧ 11 ≤ r.length ∧ r.length ≤ 16)
    ∧ ((∃ e, validate_phone_number phone = Except.error e) ↔
        ((prefixedClean phone).length < 11 ∨ 16 < (prefixedClean phone).length))
    ∧ ((cleanPhone phone).data.all (fun c => c != '+') = true →
        (cleanPhone phone).length = 10 →
        validate_phone_number phone = Except.ok ("+1" ++ cleanPhone phone)) := by
  refine ⟨?_, ?_, ?_⟩
  · intro r hr
    unfold validate_phone_number at hr
    dsimp only at hr
    split at hr
    · exact absurd hr (by simp)
    · cases hr
      next h =>
        push_neg at h
        exact ⟨pyStartsWith_prefixedClean phone, h.1, h.2⟩
  · unfold validate_phone_number
    dsimp only
    split
    · next h => exact ⟨fun _ => h, fun _ => ⟨_, rfl⟩⟩
    · next h =>
        constructor
        · rintro ⟨e, he⟩
          exact absurd he (by simp)
        · intro hc
          exact absurd hc h
  · intro hall hlen
    have hne : pyStartsWith (cleanPhone phone) "+" = false := by
      unfold pyStartsWith
      cases hd : (cleanPhone phone).data with
      | nil =>
          exfalso
          have : (cleanPhone phone).length = 0 := by
            show (cleanPhone phone).data.length = 0
            rw [hd]
            rfl
          omega
      | cons a t =>
          rw [hd] at hall
          simp only [List.all_cons, Bool.and_eq_true, bne_iff_ne] at hall
          show startsWithL ['+'] (a :: t) = false
          simp [startsWithL, beq_eq_false_iff_ne]
          intro h
          exact hall.1 h.symm
    have hpc : prefixedClean phone = "+1" ++ cleanPhone phone := by
      unfold prefixedClean
      dsimp only
      rw [if_neg (by simp [hne]), if_pos (by simp [hlen])]
    have hl2 : ("+1" ++ cleanPhone phone).length = 12 := by
      rw [String.length_append, hlen]
      decide
    unfold validate_phone_number
    dsimp only
    rw [hpc, if_neg (by rw [hl2]; omega)]

/-- Witness for `c9_validate_phone` at input `415-555-1234`. -/
theorem c9_validate_phone_witness :
    pyStartsWith "+14155551234" "+" = true
    ∧ 11 ≤ ("+14155551234" : String).length
    ∧ ("+14155551234" : String).length ≤ 16
    ∧ validate_phone_number "415-555-1234" = Except.ok ("+1" ++ cleanPhone "415-555-1234") := by
  have h := c9_validate_phone "415-555-1234"
  have h1 := h.1 "+14155551234" (by rfl)
  exact ⟨h1.1, h1.2.1, h1.2.2, h.2.2 (by decide) (by decide)⟩

/- ===================== Claim C10 ===================== -/

/-- C10: `create_rcs_payload` emits at most 11 suggestions, truncating
the quick-reply list in order, each suggestion of type `reply` with
text and postbackData equal to the input string; with no quick replies
(absent or empty list) the payload has no suggestions key. -/
theorem c10_payload_suggestions (message_body : String) (image_url : Option String)
    (quick_replies : Option (List String)) (rich_card : Option CardCfg) :
    ((quick_replies = none ∨ quick_replies = some []) →
        (create_rcs_payload message_body image_url quick_replies rich_card).suggestions = none)
    ∧ (∀ l, quick_replies = some l → l ≠ [] →
        (create_rcs_payload message_body image_url quick_replies rich_card).suggestions
          = some ((l.take 11).map (fun t => (⟨ "reply", t, t⟩ : Suggestion))))
    ∧ (∀ sug, (create_rcs_payload message_body image_url quick_replies rich_card).suggestions
            = some sug →
        sug.length ≤ 11 ∧ ∀ s, s ∈ sug → s.stype = "reply" ∧ s.postbackData = s.text) := by
  refine ⟨?_, ?_, ?_⟩
  · rintro (rfl | rfl) <;> simp [create_rcs_payload]
  · rintro l rfl hl
    simp [create_rcs_payload, List.isEmpty_iff, hl]
  · intro sug hs
    cases quick_replies with
    | none => simp [create_rcs_payload] at hs
    | some l =>
        by_cases hl : l.isEmpty
        · simp [create_rcs_payload, hl] at hs
        · simp only [create_rcs_payload, hl, Bool.false_eq_true, if_false,
            Option.some.injEq] at hs
          subst hs
          constructor
          · rw [List.length_map]
            exact List.length_take_le _ _
          · intro s hs2
            simp only [List.mem_map] at hs2
            obtain ⟨t, ht, rfl⟩ := hs2
            exact ⟨rfl, rfl⟩

/-- Witness for `c10_payload_suggestions` at quick replies `[a, b]`. -/
theorem c10_payload_suggestions_witness :
    (create_rcs_payload "x" none (some [ "a", "b"]) none).suggestions
      = some (([ "a", "b"].take 11).map (fun t => (⟨ "reply", t, t⟩ : Suggestion))) :=
  (c10_payload_suggestions "x" none (some [ "a", "b"]) none).2.1 [ "a", "b"] rfl (by decide)

end RinglyPro
